import Mathlib

/-!
Verification of the movie-crawler orchestrator of the
SEU recommendation-system repository.

The definitions below are a shallow embedding of the Python sources:

* `src/douban_crawler/crawler.py` — the batched crawl loop
  (`crawl_movies`, `_collect_batch_links`, `_parse_batch_movies`,
  `_collect_movie_links`);
* `src/douban_crawler/network.py` — `get_page`, `_smart_delay`, `close`;
* `src/imdb_crawler/network.py` — `_is_blocked_response`;
* `src/imdb_crawler/data_processor.py` — `_clean_single_movie` and its
  field cleaners;
* `src/douban_crawler/parser.py` — `_extract_douban_id`.

Effectful operations (page fetches, the headless-browser session, the
filesystem, the wall clock) are made explicit: random draws become
parameters, fetch/parse outcomes are drawn from an environment record,
and Python exceptions are modelled with `Except`/`Option` exactly where
the source raises or catches them.
-/

namespace RecSys

/-! ## Python string primitives used by the crawler code -/

/-- Python whitespace, as recognised by `str.strip` and the regex `\s`. -/
def isSpace (c : Char) : Bool :=
  c == ' ' || c == '\t' || c == '\n' || c == '\r' || c == '\x0b' || c == '\x0c'

/-- Python `str.strip()`: drop leading and trailing whitespace. -/
def pyStrip (s : String) : String :=
  String.mk (((s.data.dropWhile isSpace).reverse.dropWhile isSpace).reverse)

/-- Embedding of `re.sub(r'\s+', ' ', s)`: collapse every maximal whitespace run to one space. -/
def collapseWs : List Char → List Char
  | [] => []
  | [c] => if isSpace c then [' '] else [c]
  | c :: d :: rest =>
    if isSpace c && isSpace d then collapseWs (d :: rest)
    else (if isSpace c then ' ' else c) :: collapseWs (d :: rest)

/-- Embedding of `re.sub(r'\s+', ' ', s).strip()`, the text-cleaning idiom shared by both
data processors. -/
def cleanWsText (s : String) : String :=
  pyStrip (String.mk (collapseWs s.data))

/-- Python `needle in haystack` on lists of characters. -/
def hasSubstr (needle : List Char) : List Char → Bool
  | [] => needle.isEmpty
  | c :: rest => needle.isPrefixOf (c :: rest) || hasSubstr needle rest

/-- Lower-casing as applied by `response.text.lower()`. -/
def lowerChars (s : String) : List Char := s.data.map Char.toLower

/-- Value of a digit string (callers guarantee all characters are digits). -/
def digitsToNat (ds : List Char) : Nat :=
  ds.foldl (fun a c => a * 10 + (c.toNat - '0'.toNat)) 0

/-! ## Block Detector — `IMDBNetworkManager._is_blocked_response`
(`src/imdb_crawler/network.py`, lines 83–99) -/

/-- The HTTP response as seen by the block detector: status code and body
text.  `none` models a falsy `response` argument. -/
structure HttpResponse where
  status_code : Nat
  text : String
deriving DecidableEq, Repr

/-- The keyword list hard-coded in `_is_blocked_response`. -/
def blocked_keywords : List String :=
  ["access denied", "blocked", "rate limit", "too many requests", "captcha", "robot"]

/-- Embedding of `_is_blocked_response(response)`: falsy response → blocked; status in
{403, 429, 503} → blocked; any keyword in the lower-cased text → blocked;
otherwise not blocked.  The function is binary — there is no content-length
rule and no third verdict in the source. -/
def is_blocked_response : Option HttpResponse → Bool
  | none => true
  | some r =>
    if r.status_code == 403 || r.status_code == 429 || r.status_code == 503 then true
    else blocked_keywords.any (fun k => hasSubstr k.data (lowerChars r.text))

/-- The three-way verdict named by the specification. -/
inductive Verdict where
  | Ok
  | Blocked
  | Empty
deriving DecidableEq, Repr

/-- The code's classification lifted to the spec's verdict vocabulary: the
boolean detector can only produce `Blocked` or `Ok`. -/
def code_classify (r : Option HttpResponse) : Verdict :=
  if is_blocked_response r then .Blocked else .Ok

/-- Modelled from the spec (§4.1 rules, for comparison with the code): status
rule, then a minimum-content-length rule yielding `Empty`, then the keyword
rule, else `Ok`. -/
def spec_classify (minLen : Nat) (keywords : List String) : Option HttpResponse → Verdict
  | none => .Blocked
  | some r =>
    if r.status_code == 403 || r.status_code == 429 || r.status_code == 503 then .Blocked
    else if r.text.length < minLen then .Empty
    else if keywords.any (fun k => hasSubstr k.data (lowerChars r.text)) then .Blocked
    else .Ok

/-! ## Rate limiting — `NetworkManager._smart_delay`
(`src/douban_crawler/network.py`, lines 53–75) and the failure-scaled delay of
`DoubanMovieCrawler._collect_movie_links`
(`src/douban_crawler/crawler.py`, lines 328–341) -/

/-- The multiplier `_smart_delay` applies to its uniformly drawn base delay,
as a function of `self._request_count`.  The source reads
`if count > 20: base *= 1.5 elif count > 40: base *= 2.5`; because every
count above 40 is also above 20, the `elif` branch is unreachable. -/
def smart_delay_factor (request_count : Nat) : ℚ :=
  if 20 < request_count then 3/2
  else if 40 < request_count then 5/2
  else 1

/-- The delay drawn in `_collect_movie_links`: with `consecutive_fails = 0`
it is `uniform(DELAY_MIN, DELAY_MAX)`, otherwise
`uniform(DELAY_MIN*(1+fails), DELAY_MAX*(1+fails))`.  The uniform draw is
made explicit as a sample `u ∈ [0,1]` mapped affinely onto the window. -/
def collect_links_delay (dmin dmax : ℚ) (consecutive_fails : Nat) (u : ℚ) : ℚ :=
  if 0 < consecutive_fails then
    let lo := dmin * (1 + consecutive_fails)
    let hi := dmax * (1 + consecutive_fails)
    lo + u * (hi - lo)
  else
    dmin + u * (dmax - dmin)

/-! ## Mode control — `DoubanMovieCrawler._collect_movie_links`
(`src/douban_crawler/crawler.py`, lines 321–383) -/

/-- The two fetch strategies. -/
inductive Mode where
  | direct
  | rendered
deriving DecidableEq, Repr

/-- Outcome of one list-page visit as seen by `_collect_movie_links`:
the parsed link list (empty = failure), or an exception in fetch/parse. -/
inductive PageOutcome where
  | parsed (links : List String)
  | exception
deriving DecidableEq, Repr

/-- Constant `max_consecutive_fails` in `_collect_movie_links`. -/
def max_consecutive_fails : Nat := 3

/-- Embedding of `use_selenium = consecutive_fails >= 2`: the mode the next request will
use, as a function of the running failure counter. -/
def mode_used (consecutive_fails : Nat) : Mode :=
  if 2 ≤ consecutive_fails then .rendered else .direct

/-- One step of the failure counter of `_collect_movie_links`.  On an empty
parse the counter is incremented and, upon reaching
`max_consecutive_fails`, reset to 0; on an exception it is incremented with
no reset; on a non-empty parse it is reset to 0. -/
def collect_fails_step (cf : Nat) (o : PageOutcome) : Nat :=
  match o with
  | .parsed links =>
    if links.length == 0 then
      if max_consecutive_fails ≤ cf + 1 then 0 else cf + 1
    else 0
  | .exception => cf + 1

/-- The failure counter after `k` consecutive pages that all parse to zero
links (the "Fetcher always returns Blocked" scenario of the claim). -/
def cf_after_empty : Nat → Nat
  | 0 => 0
  | k + 1 => collect_fails_step (cf_after_empty k) (.parsed [])

/-! ## Fetcher — `NetworkManager.get_page` / `_get_with_selenium`
(`src/douban_crawler/network.py`, lines 43–113) -/

/-- Outcome of the underlying browser interaction (`driver.get` +
`page_source`): a page, or a transport-level fault (timeout, DNS,
connection refused) raised as an exception. -/
inductive TransportOutcome where
  | success (page : String)
  | failure (err : String)
deriving DecidableEq, Repr

/-- The fake response object `_get_with_selenium` builds around the page
source.  It carries no verdict field; the status code is hard-wired to 200. -/
structure SeleniumResponse where
  text : String
  status_code : Nat
  url : String
deriving DecidableEq, Repr

/-- Embedding of `driver.get(url)` followed by `driver.page_source`, in the exception
monad: transport faults are raised here. -/
def driver_fetch (o : TransportOutcome) : Except String String :=
  match o with
  | .success page => .ok page
  | .failure err => .error err

/-- Embedding of `_get_with_selenium(url)`: its own `try/except` catches every exception
of the browser interaction and turns it into `None`. -/
def get_with_selenium (url : String) (o : TransportOutcome) : Option SeleniumResponse :=
  match driver_fetch o with
  | .ok page => some { text := page, status_code := 200, url := url }
  | .error _ => none

/-- Embedding of `get_page(url)`: `try: return self._get_with_selenium(url) except e:
raise e`.  Because `_get_with_selenium` never raises, the re-raise branch is
dead and the caller receives `_get_with_selenium`'s value — possibly `None`,
never an exception. -/
def get_page (url : String) (o : TransportOutcome) : Except String (Option SeleniumResponse) :=
  .ok (get_with_selenium url o)

/-! ## Site adapter id extraction — `PageParser._extract_douban_id`
(`src/douban_crawler/parser.py`, lines 131–134): first match of the regex
`/subject/(\d+)` in the detail URL. -/

/-- The maximal digit run at the head of a character list. -/
def digitRun : List Char → List Char
  | [] => []
  | c :: rest => if c.isDigit then c :: digitRun rest else []

/-- Scan for the first occurrence of `/subject/` that is followed by at least
one digit and return that digit run, like `re.search(r'/subject/(\d+)')`. -/
def findSubjectId : List Char → Option (List Char)
  | [] => none
  | c :: rest =>
    if "/subject/".data.isPrefixOf (c :: rest) then
      let ds := digitRun ((c :: rest).drop 9)
      if ds.isEmpty then findSubjectId rest else some ds
    else findSubjectId rest

/-- Embedding of `_extract_douban_id(url)`: the captured digits, or `None` if the pattern
does not occur. -/
def extract_douban_id (url : String) : Option String :=
  (findSubjectId url.data).map String.mk

/-! ## The batched crawl — `DoubanMovieCrawler.crawl_movies`,
`_collect_batch_links`, `_parse_batch_movies`
(`src/douban_crawler/crawler.py`, lines 52–235) -/

/-- A raw movie dict as produced by `parse_movie_detail`: the detail URL, the
id extracted from it, and the parsed title (`""` models a missing/falsy
title).  The remaining page-derived fields (rating, genres, …) do not
influence any control flow verified here and are omitted. -/
structure RawMovie where
  url : String
  douban_id : Option String
  title : String
deriving DecidableEq, Repr

/-- A cleaned douban record (`DataProcessor._clean_single_movie`): the id
stringified by Python (`str(None) = "None"`), the whitespace-normalised
title.  Numeric fields, rating histogram and the poster download are omitted
for the same reason as in `RawMovie`. -/
structure CleanedDouban where
  douban_id : String
  title : String
deriving DecidableEq, Repr

/-- Network-manager events observable during a job: page retrievals and the
`close()` teardown of the browser session. -/
inductive NetAction where
  | fetch
  | close
deriving DecidableEq, Repr

/-- The environment a crawl job runs against.

`listPages n` gives, for the `n`-th discovery batch, the link list parsed
from each visited list page (folding the in-page requests→Selenium retry of
`_collect_batch_links` into the final per-page result).
`parse1 link` is the result of the first `parse_movie_detail` attempt on a
detail page, reduced to the parsed title; `parse2 link` is the Selenium
retry.  `save` is `data_processor.save_processed_data`, which touches the
filesystem and may raise; on the douban class this attribute does not exist,
which an environment models with `save = fun _ => .error "AttributeError"`. -/
structure CrawlEnv where
  listPages : Nat → List (List String)
  parse1 : String → Option String
  parse2 : String → Option String
  save : List CleanedDouban → Except String (List String)

/-- The page loop of `_collect_batch_links`: before each page, stop if
`len(new_links) >= target_count`; otherwise fetch, parse, and append the
links not in `exclude_links`.  (The per-category break of the source checks
the same condition and is subsumed by flattening the category/page loops.)
Returns the accumulated links and the fetch events emitted. -/
def collectPages (target : Nat) (exclude : List String) :
    List (List String) → List String → List String × List NetAction
  | [], acc => (acc, [])
  | p :: rest, acc =>
    if target ≤ acc.length then (acc, [])
    else
      let step := collectPages target exclude rest
        (acc ++ p.filter (fun l => !(decide (l ∈ exclude))))
      (step.1, .fetch :: step.2)

/-- Embedding of `_collect_batch_links`: run the page loop, then
`list(set(new_links))[:target_count]`.  Python's set iteration order is
unspecified; `List.dedup` fixes one duplicate-free representative — all the
properties proved about the result are order-independent. -/
def collect_batch_links (pages : List (List String)) (target : Nat)
    (exclude : List String) : List String × List NetAction :=
  let step := collectPages target exclude pages []
  ((step.1.dedup).take target, step.2)

/-- The link loop of `_parse_batch_movies`: before each link, stop at
`max_count`.  First parse attempt truthy ⇒ the guard
`not self._is_movie_info_complete(movie_info)` calls a method that
`DoubanMovieCrawler` does not define, so an `AttributeError` is raised and
the per-link `except` skips the link.  First attempt falsy ⇒ Selenium
retry; the movie is appended iff the retry produced a dict with a truthy
title. -/
def parseLinks (env : CrawlEnv) (maxCount : Nat) :
    List String → List RawMovie → List RawMovie × List NetAction
  | [], acc => (acc, [])
  | l :: rest, acc =>
    if maxCount ≤ acc.length then (acc, [])
    else
      match env.parse1 l with
      | some _ =>
        let step := parseLinks env maxCount rest acc
        (step.1, .fetch :: step.2)
      | none =>
        match env.parse2 l with
        | some t =>
          if t = "" then
            let step := parseLinks env maxCount rest acc
            (step.1, .fetch :: .fetch :: step.2)
          else
            let step := parseLinks env maxCount rest
              (acc ++ [{ url := l, douban_id := extract_douban_id l, title := t }])
            (step.1, .fetch :: .fetch :: step.2)
        | none =>
          let step := parseLinks env maxCount rest acc
          (step.1, .fetch :: .fetch :: step.2)

/-- Embedding of `_parse_batch_movies(movie_links, max_count)`. -/
def parse_batch_movies (env : CrawlEnv) (links : List String) (maxCount : Nat) :
    List RawMovie × List NetAction :=
  parseLinks env maxCount links []

/-- Why the `while` loop of `crawl_movies` stopped. -/
inductive StopReason where
  | quota
  | noNewLinks
  | fuelOut
deriving DecidableEq, Repr

/-- State returned by the batch loop: collected movie dicts, the
`collected_links` seen-set, the stop reason, and the emitted fetch events. -/
structure LoopOut where
  records : List RawMovie
  seen : List String
  reason : StopReason
  acts : List NetAction
deriving Repr

/-- The `while len(all_movie_data) < max_movies` batch loop of
`crawl_movies`.  Each round collects a batch of
`min(50, 2 * remaining)` fresh links (stopping the job if none),
updates the seen-set, parses at most `remaining` of them, and repeats.
`fuel` bounds the number of rounds so the function is total; the source
loop has no such bound. -/
def crawlLoop (env : CrawlEnv) (maxMovies : Nat) :
    Nat → Nat → List RawMovie → List String → LoopOut
  | 0, _, data, seen => ⟨data, seen, .fuelOut, []⟩
  | fuel + 1, n, data, seen =>
    if maxMovies ≤ data.length then ⟨data, seen, .quota, []⟩
    else
      let target := min 50 ((maxMovies - data.length) * 2)
      let collected := collect_batch_links (env.listPages n) target seen
      if collected.1 = [] then ⟨data, seen, .noNewLinks, collected.2⟩
      else
        let batch := parse_batch_movies env collected.1 (maxMovies - data.length)
        let r := crawlLoop env maxMovies fuel (n + 1) (data ++ batch.1) (seen ++ collected.1)
        ⟨r.records, r.seen, r.reason, collected.2 ++ batch.2 ++ r.acts⟩

/-- Embedding of `DataProcessor._is_valid_movie`: a truthy `douban_id`, or a title that is
truthy and non-blank after `strip()`. -/
def is_valid_movie (m : RawMovie) : Bool :=
  (match m.douban_id with
   | some s => s ≠ ""
   | none => false)
  || (m.title ≠ "" && pyStrip m.title ≠ "")

/-- Python `str` applied to the id value (`str(None) = "None"`). -/
def pyStrOfId : Option String → String
  | some s => s
  | none => "None"

/-- Embedding of `DataProcessor._clean_single_movie`, restricted to the fields carried by
`RawMovie`. -/
def clean_single_douban (m : RawMovie) : CleanedDouban :=
  { douban_id := pyStrOfId m.douban_id, title := cleanWsText m.title }

/-- Embedding of `DataProcessor.clean_movie_data`: keep the valid movies and clean each. -/
def clean_movie_data (raw : List RawMovie) : List CleanedDouban :=
  (raw.filter is_valid_movie).map clean_single_douban

/-- The dict `crawl_movies` returns: `success`, `data_count`, `file_paths`,
`message`.  The collected movie data itself is not part of the return value
in the source — it only reaches the filesystem through `save`. -/
structure CrawlReturn where
  success : Bool
  data_count : Nat
  file_paths : List String
  message : String
deriving DecidableEq, Repr

/-- Result of the `try`-body of `crawl_movies` before the `except` handler:
the body's outcome (possibly an uncaught internal exception), the
`all_movie_data` list at the end of the loop (ghost data used to state
properties), and the fetch events. -/
structure RunOut where
  result : Except String CrawlReturn
  collected : List RawMovie
  acts : List NetAction

/-- The `try`-body of `crawl_movies`: run the batch loop; if nothing was
collected return the `success=False` dict, otherwise truncate to
`max_movies`, clean, and save — `save` may raise, and that exception
escapes to the outer handler. -/
def crawl_body (env : CrawlEnv) (maxMovies fuel : Nat) : RunOut :=
  let L := crawlLoop env maxMovies fuel 0 [] []
  if L.records = [] then
    { result := .ok { success := false, data_count := 0, file_paths := [],
                      message := "no valid douban movie data" },
      collected := L.records, acts := L.acts }
  else
    let cleaned := clean_movie_data (L.records.take maxMovies)
    match env.save cleaned with
    | .ok files =>
      { result := .ok { success := true, data_count := cleaned.length,
                        file_paths := files, message := "crawl succeeded" },
        collected := L.records, acts := L.acts }
    | .error e =>
      { result := .error e, collected := L.records, acts := L.acts }

/-- Embedding of `crawl_movies`: the body wrapped in `except Exception` (which converts
any internal exception into a `success=False` dict) and `finally`
(which runs `network_manager.close()` on every exit path).  Returns the
dict together with the full action trace. -/
def crawl_movies (env : CrawlEnv) (maxMovies fuel : Nat) :
    CrawlReturn × List NetAction :=
  let o := crawl_body env maxMovies fuel
  let ret :=
    match o.result with
    | .ok r => r
    | .error e =>
      { success := false, data_count := 0, file_paths := [],
        message := "douban crawl failed: " ++ e }
  (ret, o.acts ++ [.close])

/-! ## Normalizer — `IMDBDataProcessor._clean_single_movie` and its field
cleaners (`src/imdb_crawler/data_processor.py`, lines 55–206) -/

/-- The dynamic values the parser stores in a raw movie dict: `None`,
strings, ints, floats, and lists of strings.  (The parser only ever places
string lists in list-valued fields.) -/
inductive PyVal where
  | pnone
  | pstr (s : String)
  | pint (n : Int)
  | pfloat (q : ℚ)
  | plist (xs : List String)
deriving DecidableEq, Repr

/-- Python truthiness of a `PyVal`. -/
def pyTruthy : PyVal → Bool
  | .pnone => false
  | .pstr s => s ≠ ""
  | .pint n => n ≠ 0
  | .pfloat q => q ≠ 0
  | .plist xs => !xs.isEmpty

/-- Python `str(value)`.  For floats the exact repr formatting of CPython is
not reproduced; any fixed deterministic rendering is adequate for the
properties proved here (the cleaners only need `str` to be a function of
the value). -/
def pyToStr : PyVal → String
  | .pnone => "None"
  | .pstr s => s
  | .pint n => toString n
  | .pfloat q => toString q
  | .plist xs => toString xs

/-- Python `int(str)` on a stripped literal: optional sign then digits
(underscore separators and other exotic forms are out of scope — the parser
never produces them). -/
def parseIntChars : List Char → Option Int
  | '-' :: ds => if !ds.isEmpty && ds.all Char.isDigit then some (-(digitsToNat ds : Int)) else none
  | '+' :: ds => if !ds.isEmpty && ds.all Char.isDigit then some (digitsToNat ds : Int) else none
  | ds => if !ds.isEmpty && ds.all Char.isDigit then some (digitsToNat ds : Int) else none

/-- Truncation of a rational toward zero, as `int(float)` does. -/
def truncRat (q : ℚ) : Int := if 0 ≤ q then q.floor else q.ceil

/-- Python `int(value)`; `none` models the `ValueError`/`TypeError` raised
on unconvertible values. -/
def pyToInt : PyVal → Option Int
  | .pnone => none
  | .pstr s => parseIntChars (pyStrip s).data
  | .pint n => some n
  | .pfloat q => some (truncRat q)
  | .plist _ => none

/-- Unsigned decimal literal: digits with an optional fractional part
(`"8"`, `"8.8"`, `"8."`, `".8"`). -/
def parseDecimalChars (l : List Char) : Option ℚ :=
  let intPart := l.takeWhile Char.isDigit
  let rest := l.dropWhile Char.isDigit
  match rest with
  | [] => if intPart.isEmpty then none else some (digitsToNat intPart : ℚ)
  | '.' :: frac =>
    if frac.all Char.isDigit && !(intPart.isEmpty && frac.isEmpty) then
      some ((digitsToNat intPart : ℚ) + (digitsToNat frac : ℚ) / ((10 : ℚ) ^ frac.length))
    else none
  | _ => none

/-- Python `float(value)`; exponent notation and specials are out of scope
for the same reason as in `pyToInt`. -/
def pyToFloat : PyVal → Option ℚ
  | .pnone => none
  | .pstr s =>
    match (pyStrip s).data with
    | '-' :: ds => (parseDecimalChars ds).map Neg.neg
    | '+' :: ds => parseDecimalChars ds
    | ds => parseDecimalChars ds
  | .pint n => some (n : ℚ)
  | .pfloat q => some q
  | .plist _ => none

/-- Round to the nearest integer, ties to even — Python's `round`. -/
def roundHalfEven (q : ℚ) : Int :=
  let f := q.floor
  let r := q - f
  if r < 1/2 then f
  else if 1/2 < r then f + 1
  else if f % 2 = 0 then f else f + 1

/-- Embedding of `round(x, 1)` on the rational model of the value. -/
def pyRound1 (q : ℚ) : ℚ := (roundHalfEven (q * 10) : ℚ) / 10

/-- Embedding of `_clean_string`: falsy → `''`, else `str(value).strip()`. -/
def clean_string (v : PyVal) : String :=
  if pyTruthy v then pyStrip (pyToStr v) else ""

/-- Embedding of `_clean_text`: falsy → `''`, else collapse whitespace and strip. -/
def clean_text (v : PyVal) : String :=
  if pyTruthy v then cleanWsText (pyToStr v) else ""

/-- Embedding of `_clean_year`: falsy → `None`; coerce to int; keep only
`1880 <= year <= datetime.now().year + 2`. -/
def clean_year (nowYear : Int) (v : PyVal) : Option Int :=
  if pyTruthy v then
    match pyToInt v with
    | some y => if 1880 ≤ y ∧ y ≤ nowYear + 2 then some y else none
    | none => none
  else none

/-- Embedding of `_clean_rating`: falsy → `None`; coerce to float; keep `0 <= r <= 10`
rounded to one decimal. -/
def clean_rating (v : PyVal) : Option ℚ :=
  if pyTruthy v then
    match pyToFloat v with
    | some r => if 0 ≤ r ∧ r ≤ 10 then some (pyRound1 r) else none
    | none => none
  else none

/-- Embedding of `_clean_number`: falsy → `None`; coerce to int. -/
def clean_number (v : PyVal) : Option Int :=
  if pyTruthy v then pyToInt v else none

/-- Embedding of `_clean_list`: falsy → `[]`; a list is cleaned item-wise keeping truthy
items; a string is split on commas keeping entries with non-blank strips. -/
def clean_list (v : PyVal) : List String :=
  if pyTruthy v then
    match v with
    | .plist xs => (xs.filter (fun i => i ≠ "")).map (fun i => pyStrip i)
    | .pstr s => ((s.splitOn ",").filter (fun i => pyStrip i ≠ "")).map (fun i => pyStrip i)
    | _ => []
  else []

/-- The wall clock as `_clean_single_movie` consumes it: `datetime.now()`
formatted into `crawl_time` (kept here as raw seconds) and the current year
used by `_clean_year`. -/
structure Clock where
  seconds : Nat
  year : Int
deriving DecidableEq, Repr

/-- The filesystem/network side of `_download_poster`: given the massaged
image URL and the id-based filename stem, the local path of the existing or
freshly downloaded file, or `None` on a download failure. -/
def PosterStore := String → String → Option String

/-- Embedding of `_download_poster(poster_url, imdb_id)`: falsy inputs → `None`; a URL
value that is not a string raises inside the `try` (→ `None`); strings not
starting with `http` are prefixed with `https:` when protocol-relative and
rejected otherwise; the remaining filesystem/network interaction is the
`store` environment. -/
def download_poster (store : PosterStore) (poster_url : PyVal) (imdb_id : String) : Option String :=
  if !(pyTruthy poster_url) || imdb_id = "" then none
  else
    match poster_url with
    | .pstr s =>
      if s.startsWith "http" then store s imdb_id
      else if s.startsWith "//" then store ("https:" ++ s) imdb_id
      else none
    | _ => none

/-- A raw movie dict: the parser's string-keyed field map. -/
def RawFields := List (String × PyVal)

/-- Embedding of `movie.get(key, default)`. -/
def getField (m : RawFields) (k : String) (dflt : PyVal) : PyVal :=
  match m.lookup k with
  | some v => v
  | none => dflt

/-- The cleaned IMDB record built by `_clean_single_movie`. -/
structure IMDBCleaned where
  platform : PyVal
  imdb_id : String
  url : String
  title : String
  original_title : String
  year : Option Int
  rating : Option ℚ
  rating_count : Option Int
  genres : List String
  duration : Option Int
  directors : List String
  actors : List String
  plot : String
  poster_url : String
  poster_path : Option String
  countries : List String
  languages : List String
  release_date : String
  budget : String
  box_office : String
  awards : List String
  crawl_time : Nat
deriving DecidableEq, Repr

/-- The cleaned-field construction of `_clean_single_movie` (the big dict
literal of lines 57–80).  The wall clock and the poster store are the
function's implicit inputs, made explicit here. -/
def imdb_cleaned_fields (store : PosterStore) (clock : Clock)
    (movie : RawFields) : IMDBCleaned :=
  { platform := getField movie "platform" (.pstr "IMDB")
    imdb_id := clean_string (getField movie "imdb_id" (.pstr ""))
    url := clean_string (getField movie "url" (.pstr ""))
    title := clean_string (getField movie "title" (.pstr ""))
    original_title := clean_string (getField movie "original_title" (.pstr ""))
    year := clean_year clock.year (getField movie "year" .pnone)
    rating := clean_rating (getField movie "rating" .pnone)
    rating_count := clean_number (getField movie "rating_count" .pnone)
    genres := clean_list (getField movie "genres" (.plist []))
    duration := clean_number (getField movie "duration" .pnone)
    directors := clean_list (getField movie "directors" (.plist []))
    actors := clean_list (getField movie "actors" (.plist []))
    plot := clean_text (getField movie "plot" (.pstr ""))
    poster_url := clean_string (getField movie "poster_url" (.pstr ""))
    poster_path := download_poster store (getField movie "poster_url" .pnone)
      (clean_string (getField movie "imdb_id" (.pstr "")))
    countries := clean_list (getField movie "countries" (.plist []))
    languages := clean_list (getField movie "languages" (.plist []))
    release_date := clean_string (getField movie "release_date" (.pstr ""))
    budget := clean_string (getField movie "budget" (.pstr ""))
    box_office := clean_string (getField movie "box_office" (.pstr ""))
    awards := clean_list (getField movie "awards" (.plist []))
    crawl_time := clock.seconds }

/-- Embedding of `IMDBDataProcessor._clean_single_movie(movie)`: build the cleaned dict,
then reject it when both `title` and `imdb_id` are empty
(`if not cleaned['title'] and not cleaned['imdb_id']: return None`). -/
def imdb_clean_single_movie (store : PosterStore) (clock : Clock)
    (movie : RawFields) : Option IMDBCleaned :=
  let cleaned := imdb_cleaned_fields store clock movie
  if cleaned.title = "" ∧ cleaned.imdb_id = "" then none else some cleaned

/-! ## Concrete instances used by counterexamples and witnesses -/

/-- A canonical douban detail URL. -/
def url1 : String := "https://movie.douban.com/subject/1/"

/-- A second, distinct URL for the same douban subject id. -/
def url2 : String := "https://movie.douban.com/subject/1/?from=top"

/-- An environment where one list page offers two distinct URLs of the same
subject, the first detail-parse attempt always fails (so the Selenium retry
path appends), and `save` raises — as the douban `DataProcessor`, which has
no `save_processed_data` attribute, does. -/
def envDup : CrawlEnv :=
  { listPages := fun _ => [[url1, url2]]
    parse1 := fun _ => none
    parse2 := fun _ => some "A"
    save := fun _ => .error "AttributeError" }

/-- An environment whose links dry up after one page and whose `save`
succeeds (the IMDB-shaped processor). -/
def envOk : CrawlEnv :=
  { listPages := fun n => if n = 0 then [[url1]] else [[]]
    parse1 := fun _ => none
    parse2 := fun _ => some "A"
    save := fun _ => .ok ["data/out.csv"] }

/-- A poster store that never yields a local file. -/
def store0 : PosterStore := fun _ _ => none

/-- A minimal raw movie dict with a title and an id. -/
def demoMovie : RawFields :=
  [("title", .pstr "Inception"), ("imdb_id", .pstr "tt1375666")]

/-- The return dict of the successful run against `envOk` with target 5. -/
def okReturn : CrawlReturn :=
  { success := true, data_count := 1, file_paths := ["data/out.csv"],
    message := "crawl succeeded" }

/-- A wall clock. -/
def clock0 : Clock := { seconds := 0, year := 2025 }

/-- The same wall clock one second later. -/
def clock1 : Clock := { seconds := 1, year := 2025 }

/-! ## Theorems -/

/-! ### Helper lemmas about the batch loops -/

/-- The detail-parsing loop never grows its accumulator beyond `maxCount`. -/
lemma parseLinks_length_le (env : CrawlEnv) (maxCount : Nat) :
    ∀ links acc, acc.length ≤ maxCount →
      (parseLinks env maxCount links acc).1.length ≤ maxCount := by
  intro links
  induction links with
  | nil => intro acc h; exact h
  | cons l rest ih =>
    intro acc h
    simp only [parseLinks]
    split
    · exact h
    · rename_i hlt
      split
      · exact ih acc h
      · split
        · split
          · exact ih acc h
          · refine ih _ ?_
            simp only [List.length_append, List.length_cons, List.length_nil]
            omega
        · exact ih acc h

/-- Every movie the detail-parsing loop emits either was in the accumulator
already or carries the URL of one of the offered links; and if the offered
links are duplicate-free and disjoint from the accumulator's URLs, the
emitted URL list is duplicate-free. -/
lemma parseLinks_urls (env : CrawlEnv) (maxCount : Nat) :
    ∀ links acc, links.Nodup → (acc.map RawMovie.url).Nodup →
      (∀ m ∈ acc, m.url ∉ links) →
      ((parseLinks env maxCount links acc).1.map RawMovie.url).Nodup ∧
      (∀ m ∈ (parseLinks env maxCount links acc).1, m ∈ acc ∨ m.url ∈ links) := by
  intro links
  induction links with
  | nil =>
    intro acc _ ha _
    exact ⟨ha, fun m hm => Or.inl hm⟩
  | cons l rest ih =>
    intro acc hnd ha hdisj
    have hl_rest : l ∉ rest := (List.nodup_cons.mp hnd).1
    have hnd_rest : rest.Nodup := (List.nodup_cons.mp hnd).2
    have hdisj_rest : ∀ m ∈ acc, m.url ∉ rest := by
      intro m hm hr
      exact hdisj m hm (List.mem_cons_of_mem l hr)
    simp only [parseLinks]
    split
    · exact ⟨ha, fun m hm => Or.inl hm⟩
    · split
      · -- first parse attempt truthy: AttributeError, link skipped
        have h := ih acc hnd_rest ha hdisj_rest
        exact ⟨h.1, fun m hm => (h.2 m hm).imp_right (List.mem_cons_of_mem l)⟩
      · split
        · split
          · -- retry parsed, but the title is falsy: skipped
            have h := ih acc hnd_rest ha hdisj_rest
            exact ⟨h.1, fun m hm => (h.2 m hm).imp_right (List.mem_cons_of_mem l)⟩
          · -- appended with url := l
            rename_i t _ _
            have ha' : ((acc ++ [RawMovie.mk l (extract_douban_id l) t]).map
                RawMovie.url).Nodup := by
              rw [List.map_append]
              refine List.Nodup.append ha (List.nodup_singleton _) ?_
              intro a hmem
              simp only [List.map_cons, List.map_nil, List.mem_singleton]
              intro heq
              obtain ⟨m, hm, hmu⟩ := List.mem_map.mp hmem
              exact hdisj m hm (by rw [hmu, heq]; exact List.mem_cons_self l rest)
            have hdisj' : ∀ m ∈ acc ++ [RawMovie.mk l (extract_douban_id l) t],
                RawMovie.url m ∉ rest := by
              intro m hm
              rcases List.mem_append.mp hm with hm1 | hm1
              · exact hdisj_rest m hm1
              · rw [List.mem_singleton.mp hm1]
                exact hl_rest
            have h := ih _ hnd_rest ha' hdisj'
            refine ⟨h.1, fun m hm => ?_⟩
            rcases h.2 m hm with hm1 | hm1
            · rcases List.mem_append.mp hm1 with hm2 | hm2
              · exact Or.inl hm2
              · right
                rw [List.mem_singleton.mp hm2]
                exact List.mem_cons_self l rest
            · exact Or.inr (List.mem_cons_of_mem l hm1)
        · -- retry failed too: skipped
          have h := ih acc hnd_rest ha hdisj_rest
          exact ⟨h.1, fun m hm => (h.2 m hm).imp_right (List.mem_cons_of_mem l)⟩

/-- Every link the page loop emits was in the accumulator or survived the
`exclude_links` filter. -/
lemma collectPages_mem (target : Nat) (exclude : List String) :
    ∀ pages acc l, l ∈ (collectPages target exclude pages acc).1 →
      l ∈ acc ∨ l ∉ exclude := by
  intro pages
  induction pages with
  | nil => intro acc l h; exact Or.inl h
  | cons p rest ih =>
    intro acc l h
    simp only [collectPages] at h
    split at h
    · exact Or.inl h
    · rcases ih _ l h with h1 | h1
      · rcases List.mem_append.mp h1 with h2 | h2
        · exact Or.inl h2
        · right
          have := (List.mem_filter.mp h2).2
          simpa using this
      · exact Or.inr h1

/-- A discovery batch is duplicate-free. -/
lemma collect_batch_links_nodup (pages : List (List String)) (target : Nat)
    (exclude : List String) :
    (collect_batch_links pages target exclude).1.Nodup := by
  unfold collect_batch_links
  exact List.Nodup.sublist (List.take_sublist _ _) (List.nodup_dedup _)

/-- A discovery batch never contains a link of the exclude set. -/
lemma collect_batch_links_fresh (pages : List (List String)) (target : Nat)
    (exclude : List String) :
    ∀ l ∈ (collect_batch_links pages target exclude).1, l ∉ exclude := by
  intro l hl
  unfold collect_batch_links at hl
  have h1 : l ∈ (collectPages target exclude pages []).1.dedup :=
    List.mem_of_mem_take hl
  have h2 : l ∈ (collectPages target exclude pages []).1 := List.mem_dedup.mp h1
  rcases collectPages_mem target exclude pages [] l h2 with h | h
  · simp at h
  · exact h

/-- The page loop emits fetch events only. -/
lemma collectPages_acts (target : Nat) (exclude : List String) :
    ∀ pages acc, NetAction.close ∉ (collectPages target exclude pages acc).2 := by
  intro pages
  induction pages with
  | nil => intro acc; simp [collectPages]
  | cons p rest ih =>
    intro acc
    simp only [collectPages]
    split
    · simp
    · intro h
      rcases List.mem_cons.mp h with h1 | h1
      · cases h1
      · exact ih _ h1

/-- The detail loop emits fetch events only. -/
lemma parseLinks_acts (env : CrawlEnv) (maxCount : Nat) :
    ∀ links acc, NetAction.close ∉ (parseLinks env maxCount links acc).2 := by
  intro links
  induction links with
  | nil => intro acc; simp [parseLinks]
  | cons l rest ih =>
    intro acc
    simp only [parseLinks]
    split
    · simp
    · split
      · intro h
        rcases List.mem_cons.mp h with h1 | h1
        · cases h1
        · exact ih _ h1
      · split
        · split <;>
          · intro h
            rcases List.mem_cons.mp h with h1 | h1
            · cases h1
            · rcases List.mem_cons.mp h1 with h2 | h2
              · cases h2
              · exact ih _ h2
        · intro h
          rcases List.mem_cons.mp h with h1 | h1
          · cases h1
          · rcases List.mem_cons.mp h1 with h2 | h2
            · cases h2
            · exact ih _ h2

/-- The batch loop emits fetch events only; `close` happens in the
`finally` of `crawl_movies`, not inside the loop. -/
lemma crawlLoop_acts (env : CrawlEnv) (maxMovies : Nat) :
    ∀ fuel n data seen, NetAction.close ∉ (crawlLoop env maxMovies fuel n data seen).acts := by
  intro fuel
  induction fuel with
  | zero => intro n data seen; simp [crawlLoop]
  | succ f ih =>
    intro n data seen
    simp only [crawlLoop]
    split
    · simp
    · split
      · exact collectPages_acts _ _ _ _
      · intro h
        simp only [List.mem_append] at h
        rcases h with (h1 | h1) | h1
        · exact collectPages_acts _ _ _ _ h1
        · exact parseLinks_acts _ _ _ _ h1
        · exact ih _ _ _ h1

/-- The batch loop preserves the quota bound and stops for the reasons the
source loop stops for: `quota` exactly at `maxMovies`, `noNewLinks` with an
empty discovery batch computed from the final state. -/
lemma crawlLoop_quota (env : CrawlEnv) (maxMovies : Nat) :
    ∀ fuel n data seen, data.length ≤ maxMovies →
      ((crawlLoop env maxMovies fuel n data seen).records.length ≤ maxMovies) ∧
      ((crawlLoop env maxMovies fuel n data seen).reason = .quota →
        (crawlLoop env maxMovies fuel n data seen).records.length = maxMovies) ∧
      ((crawlLoop env maxMovies fuel n data seen).reason = .noNewLinks →
        ∃ k, (crawlLoop env maxMovies fuel n data seen).records.length < maxMovies ∧
          (collect_batch_links (env.listPages k)
            (min 50 ((maxMovies - (crawlLoop env maxMovies fuel n data seen).records.length) * 2))
            (crawlLoop env maxMovies fuel n data seen).seen).1 = []) := by
  intro fuel
  induction fuel with
  | zero =>
    intro n data seen h
    refine ⟨h, ?_, ?_⟩ <;> · intro hr; cases hr
  | succ f ih =>
    intro n data seen h
    simp only [crawlLoop]
    split
    · rename_i hq
      exact ⟨h, fun _ => le_antisymm h hq, fun hr => by cases hr⟩
    · rename_i hq
      split
      · rename_i hempty
        refine ⟨h, ?_, ?_⟩
        · intro hr
          simp at hr
        · intro _
          exact ⟨n, by show data.length < maxMovies; omega, hempty⟩
      · have hbatch : (parse_batch_movies env
            (collect_batch_links (env.listPages n)
              (min 50 ((maxMovies - data.length) * 2)) seen).1
            (maxMovies - data.length)).1.length ≤ maxMovies - data.length := by
          apply parseLinks_length_le
          simp
        have hlen : (data ++ (parse_batch_movies env
            (collect_batch_links (env.listPages n)
              (min 50 ((maxMovies - data.length) * 2)) seen).1
            (maxMovies - data.length)).1).length ≤ maxMovies := by
          rw [List.length_append]
          omega
        exact ih _ _ _ hlen

/-- The batch loop preserves the dedup invariant: the seen-set stays
duplicate-free and the collected movies keep pairwise-distinct URLs. -/
lemma crawlLoop_nodup (env : CrawlEnv) (maxMovies : Nat) :
    ∀ fuel n data seen, seen.Nodup → (data.map RawMovie.url).Nodup →
      (∀ m ∈ data, m.url ∈ seen) →
      (crawlLoop env maxMovies fuel n data seen).seen.Nodup ∧
      ((crawlLoop env maxMovies fuel n data seen).records.map RawMovie.url).Nodup ∧
      (∀ m ∈ (crawlLoop env maxMovies fuel n data seen).records,
        m.url ∈ (crawlLoop env maxMovies fuel n data seen).seen) := by
  intro fuel
  induction fuel with
  | zero =>
    intro n data seen hs hd hsub
    exact ⟨hs, hd, hsub⟩
  | succ f ih =>
    intro n data seen hs hd hsub
    simp only [crawlLoop]
    split
    · exact ⟨hs, hd, hsub⟩
    · split
      · exact ⟨hs, hd, hsub⟩
      · rename_i hne
        set newLinks := (collect_batch_links (env.listPages n)
          (min 50 ((maxMovies - data.length) * 2)) seen).1 with hnew
        have hnodupN : newLinks.Nodup := collect_batch_links_nodup _ _ _
        have hfresh : ∀ l ∈ newLinks, l ∉ seen := collect_batch_links_fresh _ _ _
        have hparse := parseLinks_urls env (maxMovies - data.length) newLinks []
          hnodupN (by simp) (by simp)
        set batch := (parse_batch_movies env newLinks (maxMovies - data.length)).1
          with hbatch
        have hbatch_urls : ∀ m ∈ batch, m.url ∈ newLinks := by
          intro m hm
          rcases hparse.2 m hm with h1 | h1
          · cases h1
          · exact h1
        have hs' : (seen ++ newLinks).Nodup := by
          refine List.Nodup.append hs hnodupN ?_
          intro a ha hb
          exact hfresh a hb ha
        have hd' : ((data ++ batch).map RawMovie.url).Nodup := by
          rw [List.map_append]
          refine List.Nodup.append hd hparse.1 ?_
          intro a ha hb
          obtain ⟨m, hm, hmu⟩ := List.mem_map.mp ha
          obtain ⟨m2, hm2, hmu2⟩ := List.mem_map.mp hb
          have h1 : a ∈ seen := hmu ▸ hsub m hm
          have h2 : a ∈ newLinks := hmu2 ▸ hbatch_urls m2 hm2
          exact hfresh a h2 h1
        have hsub' : ∀ m ∈ data ++ batch, m.url ∈ seen ++ newLinks := by
          intro m hm
          rcases List.mem_append.mp hm with h1 | h1
          · exact List.mem_append_left _ (hsub m h1)
          · exact List.mem_append_right _ (hbatch_urls m h1)
        exact ih _ _ _ hs' hd' hsub'

/-- C2 counterexample: on a transport-level failure (a timeout raised inside
the browser interaction), `get_page` hands its caller Python `None` — not a
fetch-result object, and in particular nothing carrying a `TransportError`
verdict; the response type built by `_get_with_selenium` has no verdict
field at all. -/
theorem get_page_no_verdict_cex :
    get_page url1 (.failure "timeout") = Except.ok none := by
  rfl

/-- C2 (amended): `get_page` never propagates an exception to its caller —
for every transport outcome it returns normally — but a transport failure is
surfaced as the value `None` (no fetch result, no verdict), exactly when the
underlying browser interaction raised. -/
theorem get_page_total (url : String) (o : TransportOutcome) :
    (∃ v, get_page url o = Except.ok v) ∧
    (∀ e, get_page url o ≠ Except.error e) ∧
    (get_page url o = Except.ok none ↔ ∃ err, driver_fetch o = Except.error err) := by
  cases o with
  | success page =>
    refine ⟨⟨some { text := page, status_code := 200, url := url }, rfl⟩, ?_, ?_⟩
    · intro e h
      simp [get_page] at h
    · simp [get_page, get_with_selenium, driver_fetch]
  | failure err =>
    refine ⟨⟨none, rfl⟩, ?_, ?_⟩
    · intro e h
      simp [get_page] at h
    · simp [get_page, get_with_selenium, driver_fetch]

/-- Witness for `get_page_total` at a concrete transport failure. -/
theorem get_page_total_witness :
    get_page url1 (TransportOutcome.failure "timeout") ≠ Except.error "timeout" :=
  (get_page_total url1 (.failure "timeout")).2.1 "timeout"

/-- C3 counterexample: with every list page failing (zero links parsed) and
no `Ok` ever observed, the controller is on `Rendered` for the call after
two failures but back on `Direct` for the call after three — the counter
reset at `max_consecutive_fails` makes the mode revert to `Direct`
spontaneously while failures continue. -/
theorem mode_reverts_to_direct_cex :
    mode_used (cf_after_empty 2) = Mode.rendered ∧
    mode_used (cf_after_empty 3) = Mode.direct := by
  decide

/-- C3 (amended): under uninterrupted empty-parse failures the failure
counter of `_collect_movie_links` cycles with period 3 (`k % 3` after `k`
failures): the mode escalates to `Rendered` once the counter reaches the
threshold 2, but on every third consecutive failure the counter resets to 0
and the next request is issued in `Direct` mode again, with no `Ok`
in between. -/
theorem mode_counter_cycles (k : Nat) :
    cf_after_empty k = k % 3 ∧
    (mode_used (cf_after_empty k) = Mode.rendered ↔ k % 3 = 2) := by
  have h : cf_after_empty k = k % 3 := by
    induction k with
    | zero => rfl
    | succ n ih =>
      show collect_fails_step (cf_after_empty n) (.parsed []) = (n + 1) % 3
      rw [ih]
      simp only [collect_fails_step, List.length_nil, beq_self_eq_true, if_true,
        max_consecutive_fails]
      split <;> omega
  refine ⟨h, ?_⟩
  rw [h]
  have h3 : k % 3 = 0 ∨ k % 3 = 1 ∨ k % 3 = 2 := by omega
  rcases h3 with h3 | h3 | h3 <;> simp [mode_used, h3]

/-- Witness for `mode_counter_cycles` after five straight failures. -/
theorem mode_counter_cycles_witness :
    cf_after_empty 5 = 5 % 3 ∧
    (mode_used (cf_after_empty 5) = Mode.rendered ↔ 5 % 3 = 2) :=
  mode_counter_cycles 5

/-- C4 counterexample: a 200-status page whose body is 2 bytes long and
contains no blocked keyword.  The specification's classifier returns
`Empty` for it; the code's `_is_blocked_response` has no content-length rule
and treats it exactly like a normal page (`Ok`). -/
theorem block_detector_no_empty_cex :
    code_classify (some { status_code := 200, text := "hi" }) = Verdict.Ok ∧
    spec_classify 1000 blocked_keywords
      (some { status_code := 200, text := "hi" }) = Verdict.Empty ∧
    Verdict.Ok ≠ Verdict.Empty := by
  decide

/-- C4 (amended): the detector is a two-way classifier.  A falsy response is
blocked, and a present response is blocked iff its status is 403, 429 or 503
or its lower-cased text contains one of the six hard-coded keywords; in all
other cases it is treated as `Ok`.  No rule inspects the content length and
no `Empty` verdict exists in the code. -/
theorem block_detector_rules (r : HttpResponse) :
    is_blocked_response none = true ∧
    (is_blocked_response (some r) = true ↔
      (r.status_code = 403 ∨ r.status_code = 429 ∨ r.status_code = 503 ∨
        ∃ k ∈ blocked_keywords, hasSubstr k.data (lowerChars r.text) = true)) := by
  refine ⟨rfl, ?_⟩
  show (if r.status_code == 403 || r.status_code == 429 || r.status_code == 503
          then true
          else blocked_keywords.any (fun k => hasSubstr k.data (lowerChars r.text))) = true ↔ _
  split
  · rename_i h
    simp only [Bool.or_eq_true, beq_iff_eq] at h
    simp only [true_iff]
    tauto
  · rename_i h
    simp only [Bool.or_eq_true, beq_iff_eq] at h
    push_neg at h
    simp only [List.any_eq_true]
    constructor
    · intro ⟨k, hk, hs⟩
      exact Or.inr (Or.inr (Or.inr ⟨k, hk, hs⟩))
    · obtain ⟨⟨n1, n2⟩, n3⟩ := h
      rintro (h4 | h4 | h4 | ⟨k, hk, hs⟩)
      · exact absurd h4 n1
      · exact absurd h4 n2
      · exact absurd h4 n3
      · exact ⟨k, hk, hs⟩

/-- Witness for `block_detector_rules` at a 403 response. -/
theorem block_detector_rules_witness :
    is_blocked_response none = true ∧
    (is_blocked_response (some { status_code := 403, text := "x" }) = true ↔
      ((403 : Nat) = 403 ∨ (403 : Nat) = 429 ∨ (403 : Nat) = 503 ∨
        ∃ k ∈ blocked_keywords, hasSubstr k.data (lowerChars "x") = true)) :=
  block_detector_rules { status_code := 403, text := "x" }

/-- C9 counterexample: at 41 requests — above the higher threshold (40) —
`_smart_delay` multiplies the delay window by 1.5, not 2.5: the `elif`
branch carrying the ×2.5 factor is shadowed by the ×1.5 branch and is
unreachable, and the factor is keyed to the request count, not to
`consecutive_fails`. -/
theorem smart_delay_factor_cex :
    smart_delay_factor 41 = 3/2 ∧ smart_delay_factor 41 ≠ 5/2 := by
  constructor
  · simp [smart_delay_factor]
  · simp [smart_delay_factor]
    norm_num

/-- C9 (amended): the failure-scaled delay of `_collect_movie_links` is
monotone in the failure count: for any window `[dmin, dmax]` with
`0 ≤ dmin ≤ dmax` and any uniform sample, the delay at
`consecutive_fails = 5` (window scaled by `1 + 5 = 6`) is at least the
delay at `consecutive_fails = 0`; the ×1.5/×2.5 request-count scaling of
`_smart_delay` never produces the 2.5 factor — above 40 requests the
multiplier is still 1.5. -/
theorem rate_limit_monotone (dmin dmax u : ℚ)
    (h0 : 0 ≤ dmin) (h1 : dmin ≤ dmax) (hu0 : 0 ≤ u) (_hu1 : u ≤ 1) :
    collect_links_delay dmin dmax 0 u ≤ collect_links_delay dmin dmax 5 u ∧
    ∀ n, 40 < n → smart_delay_factor n = 3/2 := by
  constructor
  · simp only [collect_links_delay, lt_self_iff_false, if_false, Nat.lt_irrefl]
    norm_num
    nlinarith
  · intro n hn
    simp only [smart_delay_factor]
    rw [if_pos (by omega)]

/-- Witness for `rate_limit_monotone` at the douban window `[2, 5]` and the
midpoint sample. -/
theorem rate_limit_monotone_witness :
    collect_links_delay 2 5 0 (1/2) ≤ collect_links_delay 2 5 5 (1/2) ∧
    ∀ n, 40 < n → smart_delay_factor n = 3/2 :=
  rate_limit_monotone 2 5 (1/2) (by norm_num) (by norm_num) (by norm_num) (by norm_num)

/-- Bound used for the returned `data_count`: cleaning never adds records. -/
lemma clean_movie_data_length_le (raw : List RawMovie) :
    (clean_movie_data raw).length ≤ raw.length := by
  unfold clean_movie_data
  rw [List.length_map]
  exact List.length_filter_le _ _

/-- C1 (confirmed): at every state the batch loop can reach, and in the
returned result, no more than `max_movies` records are held — each batch
parses at most `remaining` movies, so `len(all_movie_data) ≤ max_movies` is
invariant; the loop stops with `quota` exactly when the count equals the
target and with `noNewLinks` exactly when the discovery batch computed from
the final state is empty (fuel exhaustion is an artifact of the embedding,
not a third stop condition of the source loop); the returned `data_count`
also never exceeds the target. -/
theorem crawl_quota_invariant (env : CrawlEnv) (maxMovies fuel n : Nat)
    (data : List RawMovie) (seen : List String) (h : data.length ≤ maxMovies) :
    ((crawlLoop env maxMovies fuel n data seen).records.length ≤ maxMovies) ∧
    ((crawlLoop env maxMovies fuel n data seen).reason = .quota →
      (crawlLoop env maxMovies fuel n data seen).records.length = maxMovies) ∧
    ((crawlLoop env maxMovies fuel n data seen).reason = .noNewLinks →
      ∃ k, (crawlLoop env maxMovies fuel n data seen).records.length < maxMovies ∧
        (collect_batch_links (env.listPages k)
          (min 50 ((maxMovies - (crawlLoop env maxMovies fuel n data seen).records.length) * 2))
          (crawlLoop env maxMovies fuel n data seen).seen).1 = []) ∧
    (crawl_movies env maxMovies fuel).1.data_count ≤ maxMovies := by
  obtain ⟨h1, h2, h3⟩ := crawlLoop_quota env maxMovies fuel n data seen h
  refine ⟨h1, h2, h3, ?_⟩
  by_cases hrec : (crawlLoop env maxMovies fuel 0 [] []).records = []
  · simp [crawl_movies, crawl_body, hrec]
  · have hle : (clean_movie_data
        (List.take maxMovies (crawlLoop env maxMovies fuel 0 [] []).records)).length ≤
        maxMovies := by
      calc (clean_movie_data
          (List.take maxMovies (crawlLoop env maxMovies fuel 0 [] []).records)).length
          ≤ (List.take maxMovies (crawlLoop env maxMovies fuel 0 [] []).records).length :=
            clean_movie_data_length_le _
        _ ≤ maxMovies := List.length_take_le _ _
    cases hsave : env.save (clean_movie_data
        (List.take maxMovies (crawlLoop env maxMovies fuel 0 [] []).records)) with
    | ok files => simpa [crawl_movies, crawl_body, hrec, hsave] using hle
    | error e => simp [crawl_movies, crawl_body, hrec, hsave]

/-- Witness for `crawl_quota_invariant` on a concrete environment. -/
theorem crawl_quota_invariant_witness :
    (crawlLoop envOk 5 3 0 [] []).records.length ≤ 5 :=
  (crawl_quota_invariant envOk 5 3 0 [] [] (by simp)).1

/-- C5 counterexample: two distinct detail URLs embedding the same douban
subject id (`/subject/1/` and `/subject/1/?from=top`) both survive the
link-level dedup — `collected_links` holds raw URL strings while
`douban_id` is extracted by regex — so the collected result contains two
records with the same source id. -/
theorem dedup_sourceid_cex :
    ((crawlLoop envDup 2 2 0 [] []).records.map RawMovie.douban_id) =
      [some "1", some "1"] ∧
    ¬ ((crawlLoop envDup 2 2 0 [] []).records.map RawMovie.douban_id).Nodup := by
  have h : ((crawlLoop envDup 2 2 0 [] []).records.map RawMovie.douban_id) =
      [some "1", some "1"] := by decide
  refine ⟨h, ?_⟩
  rw [h]
  decide

/-- C5 (amended): the seen-set never holds two equal entries, a discovery
batch is duplicate-free and never re-offers a link already in the seen-set,
and no two collected records share the same source URL; uniqueness of the
regex-extracted `douban_id` itself is not guaranteed (see the
counterexample), only uniqueness of the underlying links. -/
theorem dedup_invariant (env : CrawlEnv) (maxMovies fuel n : Nat)
    (data : List RawMovie) (seen : List String)
    (hseen : seen.Nodup) (hdata : (data.map RawMovie.url).Nodup)
    (hsub : ∀ m ∈ data, m.url ∈ seen) :
    (crawlLoop env maxMovies fuel n data seen).seen.Nodup ∧
    ((crawlLoop env maxMovies fuel n data seen).records.map RawMovie.url).Nodup ∧
    (∀ pages target excl,
      (collect_batch_links pages target excl).1.Nodup ∧
      ∀ l ∈ (collect_batch_links pages target excl).1, l ∉ excl) := by
  obtain ⟨h1, h2, _⟩ := crawlLoop_nodup env maxMovies fuel n data seen hseen hdata hsub
  exact ⟨h1, h2, fun pages target excl =>
    ⟨collect_batch_links_nodup _ _ _, collect_batch_links_fresh _ _ _⟩⟩

/-- Witness for `dedup_invariant` on a concrete environment. -/
theorem dedup_invariant_witness :
    (crawlLoop envOk 5 3 0 [] []).seen.Nodup :=
  (dedup_invariant envOk 5 3 0 [] [] (by simp) (by simp) (by simp)).1

/-- C6 counterexample: a run that collected one movie and then hit an
internal exception (the douban `save_processed_data` attribute is missing)
returns `success=False`, `data_count=0` and no file paths — the partial
collected data is not carried by the returned object, contradicting the
claim that the result carries the (possibly partial) collected data. -/
theorem crawl_data_lost_cex :
    (crawl_movies envDup 1 2).1.success = false ∧
    (crawl_movies envDup 1 2).1.data_count = 0 ∧
    (crawl_movies envDup 1 2).1.file_paths = [] ∧
    (crawl_body envDup 1 2).collected.length = 1 := by
  decide

/-- C6 (amended): `crawl_movies` never raises to its caller — it always
returns a dict with a success flag, a record count, file paths and a
message; when the body raises internally, the handler returns the
fixed failure dict (count 0, no paths), not the partial data. -/
theorem crawl_never_raises (env : CrawlEnv) (maxMovies fuel : Nat) :
    (∃ ret acts, crawl_movies env maxMovies fuel = (ret, acts)) ∧
    (∀ e, (crawl_body env maxMovies fuel).result = Except.error e →
      (crawl_movies env maxMovies fuel).1 =
        { success := false, data_count := 0, file_paths := [],
          message := "douban crawl failed: " ++ e }) := by
  refine ⟨⟨_, _, rfl⟩, ?_⟩
  intro e he
  simp [crawl_movies, he]

/-- Witness for `crawl_never_raises` on the douban-shaped environment whose
`save` attribute is missing. -/
theorem crawl_never_raises_witness :
    (crawl_movies envDup 1 2).1 =
      { success := false, data_count := 0, file_paths := [],
        message := "douban crawl failed: " ++ "AttributeError" } :=
  (crawl_never_raises envDup 1 2).2 "AttributeError" rfl

/-- C7 (confirmed): on every exit path — quota reached, empty discovery
batch, fuel exhaustion, or an internal exception caught by the handler —
the network manager's `close()` teardown runs exactly once, after all
fetches, as the final action before `crawl_movies` returns. -/
theorem teardown_always_runs (env : CrawlEnv) (maxMovies fuel : Nat) :
    ∃ pre, (crawl_movies env maxMovies fuel).2 = pre ++ [NetAction.close] ∧
      NetAction.close ∉ pre := by
  refine ⟨(crawl_body env maxMovies fuel).acts, rfl, ?_⟩
  have hacts : (crawl_body env maxMovies fuel).acts =
      (crawlLoop env maxMovies fuel 0 [] []).acts := by
    by_cases hrec : (crawlLoop env maxMovies fuel 0 [] []).records = []
    · simp [crawl_body, hrec]
    · cases hsave : env.save (clean_movie_data
          (List.take maxMovies (crawlLoop env maxMovies fuel 0 [] []).records)) with
      | ok files => simp [crawl_body, hrec, hsave]
      | error e => simp [crawl_body, hrec, hsave]
  rw [hacts]
  exact crawlLoop_acts env maxMovies fuel 0 [] []

/-- Witness for `teardown_always_runs` on a concrete environment. -/
theorem teardown_always_runs_witness :
    ∃ pre, (crawl_movies envOk 5 3).2 = pre ++ [NetAction.close] ∧
      NetAction.close ∉ pre :=
  teardown_always_runs envOk 5 3

/-- C10 (confirmed): whenever the body of `crawl_movies` completes without
an internal exception, the returned `success` flag is true iff at least one
movie was collected; and success does not imply the target was reached — a
concrete run returns `success=True` with 1 of 5 requested records. -/
theorem success_iff_collected (env : CrawlEnv) (maxMovies fuel : Nat) (r : CrawlReturn)
    (h : (crawl_body env maxMovies fuel).result = Except.ok r) :
    (r.success = true ↔ (crawl_body env maxMovies fuel).collected ≠ []) ∧
    (∃ r5, (crawl_body envOk 5 3).result = Except.ok r5 ∧
      r5.success = true ∧ r5.data_count < 5) := by
  constructor
  · by_cases hrec : (crawlLoop env maxMovies fuel 0 [] []).records = []
    · have h2 := h
      simp [crawl_body, hrec] at h2
      subst h2
      simp [crawl_body, hrec]
    · cases hsave : env.save (clean_movie_data
          (List.take maxMovies (crawlLoop env maxMovies fuel 0 [] []).records)) with
      | ok files =>
        have h2 := h
        simp [crawl_body, hrec, hsave] at h2
        subst h2
        simp [crawl_body, hrec, hsave]
      | error e =>
        have h2 := h
        simp [crawl_body, hrec, hsave] at h2
  · exact ⟨okReturn, rfl, rfl, by decide⟩

/-- Witness for `success_iff_collected` on a concrete successful run. -/
theorem success_iff_collected_witness :
    (okReturn.success = true ↔ (crawl_body envOk 5 3).collected ≠ []) :=
  (success_iff_collected envOk 5 3 okReturn rfl).1

/-- C8 counterexample: cleaning the same raw field map at two different
instants yields different records — the cleaner stamps
`crawl_time = datetime.now()` into its output, so it is not a pure function
of the raw fields and calling it twice need not give identical records. -/
theorem normalize_time_dependence_cex :
    imdb_clean_single_movie store0 clock0 demoMovie ≠
    imdb_clean_single_movie store0 clock1 demoMovie := by
  decide

/-- C8 (amended): `_clean_single_movie` is deterministic given the wall
clock and the poster store, and every output field except `year` (whose
upper bound reads the current year), `poster_path` (filesystem/network) and
`crawl_time` (wall clock) is a pure function of the raw input; but the
record embeds `crawl_time` and `poster_path`, so the idempotence claimed
for the full record holds only at a fixed instant and store. -/
theorem normalize_deterministic (s1 s2 : PosterStore) (c1 c2 : Clock)
    (movie : RawFields) :
    ((imdb_clean_single_movie s1 c1 movie).isSome ↔
      (imdb_clean_single_movie s2 c2 movie).isSome) ∧
    (∀ m1 m2, imdb_clean_single_movie s1 c1 movie = some m1 →
        imdb_clean_single_movie s2 c2 movie = some m2 →
      m1.platform = m2.platform ∧ m1.imdb_id = m2.imdb_id ∧ m1.url = m2.url ∧
      m1.title = m2.title ∧ m1.original_title = m2.original_title ∧
      m1.rating = m2.rating ∧ m1.rating_count = m2.rating_count ∧
      m1.genres = m2.genres ∧ m1.duration = m2.duration ∧
      m1.directors = m2.directors ∧ m1.actors = m2.actors ∧ m1.plot = m2.plot ∧
      m1.poster_url = m2.poster_url ∧ m1.countries = m2.countries ∧
      m1.languages = m2.languages ∧ m1.release_date = m2.release_date ∧
      m1.budget = m2.budget ∧ m1.box_office = m2.box_office ∧
      m1.awards = m2.awards) ∧
    (s1 = s2 → c1 = c2 →
      imdb_clean_single_movie s1 c1 movie = imdb_clean_single_movie s2 c2 movie) := by
  have hcond : ((imdb_cleaned_fields s1 c1 movie).title = "" ∧
      (imdb_cleaned_fields s1 c1 movie).imdb_id = "") ↔
      ((imdb_cleaned_fields s2 c2 movie).title = "" ∧
      (imdb_cleaned_fields s2 c2 movie).imdb_id = "") := Iff.rfl
  refine ⟨?_, ?_, ?_⟩
  · unfold imdb_clean_single_movie
    by_cases hc : (imdb_cleaned_fields s1 c1 movie).title = "" ∧
        (imdb_cleaned_fields s1 c1 movie).imdb_id = ""
    · rw [if_pos hc, if_pos (hcond.mp hc)]
    · rw [if_neg hc, if_neg (fun hx => hc (hcond.mpr hx))]
      simp
  · intro m1 m2 h1 h2
    unfold imdb_clean_single_movie at h1 h2
    by_cases hc : (imdb_cleaned_fields s1 c1 movie).title = "" ∧
        (imdb_cleaned_fields s1 c1 movie).imdb_id = ""
    · rw [if_pos hc] at h1
      cases h1
    · rw [if_neg hc] at h1
      rw [if_neg (fun hx => hc (hcond.mpr hx))] at h2
      obtain rfl := (Option.some.injEq _ _).mp h1
      obtain rfl := (Option.some.injEq _ _).mp h2
      exact ⟨rfl, rfl, rfl, rfl, rfl, rfl, rfl, rfl, rfl, rfl, rfl, rfl, rfl,
        rfl, rfl, rfl, rfl, rfl, rfl⟩
  · rintro rfl rfl
    rfl

/-- Witness for `normalize_deterministic`: at a fixed clock and store the
cleaner gives identical results. -/
theorem normalize_deterministic_witness :
    imdb_clean_single_movie store0 clock0 demoMovie =
    imdb_clean_single_movie store0 clock0 demoMovie :=
  (normalize_deterministic store0 store0 clock0 clock0 demoMovie).2.2 rfl rfl

end RecSys
